import Mathlib

/-!
Shallow embedding of `iopaint/model_manager.py` (class `ModelManager`).

The manager owns one loaded Backend, the active model name, and the
controlnet (auxiliary-path) toggle state.  External collaborators
(`ModelInfo` descriptors from the catalog scan, the Backend classes
`ControlNet` / registered erase models / `SD` / `SDXL`, the diffusers
pipeline calls `enable_freeu`, `load_lora_weights`, ...) are modelled as
explicit data: a descriptor record, a Backend state record, and an
environment `Env` carrying the catalog, the registry of specially
registered model names, a failure oracle for external constructors, the
`switch_mps_device` helper and the backend inference function.

Python in-place mutation is modelled by explicit state passing: each
manager method returns a `StepResult` holding the post state, the raised
exception if any (Python mutations performed before a raise persist, so
the state is returned alongside the error), and a trace of the externally
observable operations (backend constructions, cheap method switches,
freeu and lora calls) used to express "no rebuild happened" and
"exactly one load".
-/

namespace IOPaint

/-- `ModelType` enum of `iopaint.schema` (the constructors used by the
dispatch in `init_model`, plus the remaining kinds which fall through to
the final `NotImplementedError`). -/
inductive ModelType where
  | INPAINT
  | DIFFUSERS_SD
  | DIFFUSERS_SD_INPAINT
  | DIFFUSERS_SDXL
  | DIFFUSERS_SDXL_INPAINT
  | DIFFUSERS_OTHER
deriving DecidableEq, Repr

/-- `ModelInfo` descriptor from the catalog scan.  In the source the
capability flags and the controlnet list are properties of
`iopaint.schema.ModelInfo`; the manager only reads them, so they are
plain fields here. -/
structure ModelInfo where
  name : String
  model_type : ModelType
  support_controlnet : Bool
  support_freeu : Bool
  support_lcm_lora : Bool
  controlnets : List String
deriving DecidableEq, Repr

/-- Four scalar parameters of `config.sd_freeu_config`.  The floats are
only stored and compared, never computed with, so rationals stand in. -/
structure FreeuConfig where
  s1 : Rat
  s2 : Rat
  b1 : Rat
  b2 : Rat
deriving DecidableEq, Repr

/-- Which Backend variant `init_model` constructed. -/
inductive BackendKind where
  | controlNet   -- the auxiliary-path-augmented variant
  | registered   -- a specially-registered implementation from `models`
  | sd
  | sdxl
deriving DecidableEq, Repr

/-- Tri-state of the LCM-LoRA adapter on the pipeline
(`get_list_adapters` is non-empty exactly when not unloaded). -/
inductive AdapterState where
  | unloaded
  | loadedDisabled
  | loadedEnabled
deriving DecidableEq, Repr

/-- One loaded Backend instance (`self.model`), with the externally
visible state the manager manipulates: which variant it is, the name it
was built for, its device, the controlnet method it runs, the freeu
tuning state of its pipeline (`none` = baseline untuned) and the adapter
tri-state.  A freshly constructed Backend starts untuned and with the
adapter unloaded. -/
structure Backend where
  kind : BackendKind
  name : String
  device : String
  controlnet_method : Option String
  enable_controlnet : Bool
  freeu : Option FreeuConfig
  adapter : AdapterState
deriving DecidableEq, Repr

/-- `InpaintRequest` fields consumed by the reconciliation methods. -/
structure InpaintRequest where
  controlnet_method : Option String
  enable_controlnet : Bool
  sd_freeu : Bool
  sd_freeu_config : FreeuConfig
  sd_lcm_lora : Bool
deriving DecidableEq, Repr

/-- Exceptions the embedded code can raise. -/
inductive Err where
  | notImplemented (name : String)  -- `NotImplementedError`: unsupported model
  | keyError (key : String)         -- failed dict lookup `available_models[key]`
  | buildFailure (name : String)    -- an external Backend constructor raised
  | attributeError                  -- access to a deleted `self.model`
deriving DecidableEq, Repr

/-- Externally observable operations, used to express rebuild counts and
adapter load counts. -/
inductive Event where
  | release                          -- `del self.model; torch_gc()`
  | build (name : String)            -- a Backend successfully constructed
  | methodSwitch (m : Option String) -- `self.model.switch_controlnet_method(m)`
  | freeuEnable (c : FreeuConfig)    -- `enable_freeu(s1, s2, b1, b2)`
  | freeuDisable                     -- `disable_freeu()`
  | loraLoad                         -- `load_lora_weights(...)`
  | loraEnable                       -- `enable_lora()`
  | loraDisable                      -- `disable_lora()`
  | backendInvoke                    -- delegation `self.model(image, mask, config)`
deriving DecidableEq, Repr

/-- `ActiveState` of the manager: `self.name`, `self.device`,
`self.enable_controlnet`, `self.controlnet_method`, `self.model`
(`none` models the window after `del self.model` when a rebuild failed). -/
structure ManagerState where
  name : String
  device : String
  enable_controlnet : Bool
  controlnet_method : Option String
  model : Option Backend
deriving DecidableEq, Repr

/-- External collaborators: catalog (`scan_models`), the `models`
registry of specially registered implementations, a failure oracle for
the external Backend constructors, `switch_mps_device`, and the
backend's inference function. -/
structure Env where
  catalog : List ModelInfo
  registered : List String
  buildFails : String → Bool
  switch_mps_device : String → String → String
  invokeResult : Backend → List Int → List Int → InpaintRequest → List Int

/-- Result of one (possibly raising) manager method: post state, raised
exception if any, trace of observable operations. -/
structure StepResult where
  state : ManagerState
  err : Option Err
  events : List Event
deriving Repr

/-- Lookup in the dict `self.available_models = {it.name: it}`. -/
def findModel (catalog : List ModelInfo) (name : String) : Option ModelInfo :=
  catalog.find? (fun mi => mi.name == name)

/-- Python truthiness of `config.controlnet_method` (an optional string). -/
def truthy : Option String → Bool
  | none => false
  | some c => !(c == "")

/-- Python `self.controlnet_method in controlnets` where the left side is
`None` or a string. -/
def containsOpt (l : List String) : Option String → Bool
  | none => false
  | some c => l.contains c

/-- An external Backend constructor call (`ControlNet(device, **kwargs)`,
`models[name](device, **kwargs)`, `SD(...)`, `SDXL(...)`): it raises iff
the failure oracle says so, and otherwise yields a fresh Backend in
baseline state carrying the manager's current controlnet settings. -/
def construct (env : Env) (kind : BackendKind) (device : String) (name : String)
    (ec : Bool) (cm : Option String) : Except Err Backend :=
  if env.buildFails name then
    .error (.buildFailure name)
  else
    .ok { kind := kind, name := name, device := device,
          controlnet_method := cm, enable_controlnet := ec,
          freeu := none, adapter := .unloaded }

/-- `ModelManager.init_model` (the Backend Factory).  `ec` and `cm` are
`self.enable_controlnet` and `self.controlnet_method` at call time, which
the source injects into `kwargs`. -/
def init_model (env : Env) (device : String) (ec : Bool) (cm : Option String)
    (name : String) : Except Err Backend :=
  match findModel env.catalog name with
  | none => .error (.notImplemented name)
  | some mi =>
    if mi.support_controlnet ∧ ec then
      construct env .controlNet device name ec cm
    else if name ∈ env.registered then
      construct env .registered device name ec cm
    else if mi.model_type = .DIFFUSERS_SD_INPAINT ∨ mi.model_type = .DIFFUSERS_SD then
      construct env .sd device name ec cm
    else if mi.model_type = .DIFFUSERS_SDXL_INPAINT ∨ mi.model_type = .DIFFUSERS_SDXL then
      construct env .sdxl device name ec cm
    else
      .error (.notImplemented name)

/-- `ModelManager.__init__`: resolve the default controlnet method, then
build the initial Backend.  `kw_ec` / `kw_cm` are
`kwargs.get("enable_controlnet", False)` / `kwargs.get("controlnet_method", None)`. -/
def ModelManager.mk (env : Env) (name : String) (device : String)
    (kw_ec : Bool) (kw_cm : Option String) : Except Err ManagerState :=
  let cm : Option String :=
    match kw_cm with
    | some c => some c
    | none =>
      match findModel env.catalog name with
      | some mi => if mi.support_controlnet then some mi.controlnets.headI else none
      | none => none
  match init_model env device kw_ec cm name with
  | .error e => .error e
  | .ok b =>
    .ok { name := name, device := device, enable_controlnet := kw_ec,
          controlnet_method := cm, model := some b }

/-- `ModelManager.switch`.  Python mutates in place; each branch below
returns the field values the mutations leave behind:
* early return when the name is unchanged;
* `self.name = new_name` happens before the catalog lookup, so an absent
  name raises `KeyError` with the name already overwritten;
* on a successful rebuild the new name, the (possibly reset) method and
  the new Backend are in place;
* when the new build raises, name and method are restored from the
  checkpoint and the old Backend is rebuilt; if that succeeds the
  original exception is re-raised, otherwise the rebuild's exception
  escapes with `self.model` deleted. -/
def ModelManager.switch (env : Env) (s : ManagerState) (new_name : String) :
    StepResult :=
  if new_name = s.name then ⟨s, none, []⟩
  else
    match findModel env.catalog new_name with
    | none => ⟨{ s with name := new_name }, some (.keyError new_name), []⟩
    | some mi =>
      let cm2 : Option String :=
        if mi.support_controlnet ∧ ¬ containsOpt mi.controlnets s.controlnet_method then
          some mi.controlnets.headI
        else s.controlnet_method
      match init_model env (env.switch_mps_device new_name s.device)
          s.enable_controlnet cm2 new_name with
      | .ok b =>
        ⟨{ s with name := new_name, controlnet_method := cm2, model := some b },
          none, [.release, .build new_name]⟩
      | .error e =>
        match init_model env (env.switch_mps_device s.name s.device)
            s.enable_controlnet s.controlnet_method s.name with
        | .ok b2 => ⟨{ s with model := some b2 }, some e, [.release, .build s.name]⟩
        | .error e2 => ⟨{ s with model := none }, some e2, [.release]⟩

/-- `ModelManager.switch_controlnet_method` (auxiliary-path
reconciliation on `invoke`). -/
def ModelManager.switch_controlnet_method (env : Env) (s : ManagerState)
    (config : InpaintRequest) : StepResult :=
  match findModel env.catalog s.name with
  | none => ⟨s, some (.keyError s.name), []⟩
  | some mi =>
    if ¬ mi.support_controlnet then ⟨s, none, []⟩
    else if s.enable_controlnet ∧ truthy config.controlnet_method ∧
        s.controlnet_method ≠ config.controlnet_method then
      match s.model with
      | none =>
        ⟨{ s with controlnet_method := config.controlnet_method },
          some .attributeError, []⟩
      | some m =>
        ⟨{ s with controlnet_method := config.controlnet_method,
                  model := some { m with controlnet_method := config.controlnet_method } },
          none, [.methodSwitch config.controlnet_method]⟩
    else if s.enable_controlnet ≠ config.enable_controlnet then
      match s.model with
      | none =>
        ⟨{ s with enable_controlnet := config.enable_controlnet,
                  controlnet_method := config.controlnet_method },
          some .attributeError, []⟩
      | some _ =>
        match init_model env (env.switch_mps_device s.name s.device)
            config.enable_controlnet config.controlnet_method s.name with
        | .ok b =>
          ⟨{ s with enable_controlnet := config.enable_controlnet,
                    controlnet_method := config.controlnet_method,
                    model := some b },
            none, [.build s.name]⟩
        | .error e =>
          ⟨{ s with enable_controlnet := config.enable_controlnet,
                    controlnet_method := config.controlnet_method },
            some e, []⟩
    else ⟨s, none, []⟩

/-- `ModelManager.enable_disable_freeu` (tuning reconciliation). -/
def ModelManager.enable_disable_freeu (env : Env) (s : ManagerState)
    (config : InpaintRequest) : StepResult :=
  match s.model with
  | none => ⟨s, some .attributeError, []⟩
  | some m =>
    if m.device = "mps" then ⟨s, none, []⟩
    else
      match findModel env.catalog s.name with
      | none => ⟨s, some (.keyError s.name), []⟩
      | some mi =>
        if mi.support_freeu then
          if config.sd_freeu then
            ⟨{ s with model := some { m with freeu := some config.sd_freeu_config } },
              none, [.freeuEnable config.sd_freeu_config]⟩
          else
            ⟨{ s with model := some { m with freeu := none } }, none, [.freeuDisable]⟩
        else ⟨s, none, []⟩

/-- `ModelManager.enable_disable_lcm_lora` (adapter reconciliation).
`load_lora_weights` loads and activates the adapter weights, so both the
load and the cheap `enable_lora` end in the loaded-enabled state. -/
def ModelManager.enable_disable_lcm_lora (env : Env) (s : ManagerState)
    (config : InpaintRequest) : StepResult :=
  match findModel env.catalog s.name with
  | none => ⟨s, some (.keyError s.name), []⟩
  | some mi =>
    if mi.support_lcm_lora then
      match s.model with
      | none => ⟨s, some .attributeError, []⟩
      | some m =>
        if config.sd_lcm_lora then
          if m.adapter = .unloaded then
            ⟨{ s with model := some { m with adapter := .loadedEnabled } },
              none, [.loraLoad]⟩
          else
            ⟨{ s with model := some { m with adapter := .loadedEnabled } },
              none, [.loraEnable]⟩
        else
          if m.adapter = .unloaded then ⟨s, none, []⟩
          else
            ⟨{ s with model := some { m with adapter := .loadedDisabled } },
              none, [.loraDisable]⟩
    else ⟨s, none, []⟩

/-- `.astype(np.uint8)` on the returned image. -/
def astype_uint8 (img : List Int) : List Int :=
  img.map (fun x => x % 256)

/-- `ModelManager.__call__`: the three reconciliation steps in source
order, then delegation to the Backend.  A raise in any step aborts the
call, keeping that step's mutations. -/
def ModelManager.call (env : Env) (s : ManagerState) (image mask : List Int)
    (config : InpaintRequest) : StepResult × Option (List Int) :=
  let r1 := ModelManager.switch_controlnet_method env s config
  match r1.err with
  | some _ => (r1, none)
  | none =>
    let r2 := ModelManager.enable_disable_freeu env r1.state config
    match r2.err with
    | some e => (⟨r2.state, some e, r1.events ++ r2.events⟩, none)
    | none =>
      let r3 := ModelManager.enable_disable_lcm_lora env r2.state config
      match r3.err with
      | some e => (⟨r3.state, some e, r1.events ++ r2.events ++ r3.events⟩, none)
      | none =>
        match r3.state.model with
        | none =>
          (⟨r3.state, some .attributeError,
            r1.events ++ r2.events ++ r3.events⟩, none)
        | some m =>
          (⟨r3.state, none, r1.events ++ r2.events ++ r3.events ++ [.backendInvoke]⟩,
            some (astype_uint8 (env.invokeResult m image mask config)))

end IOPaint

namespace IOPaint

/-! ### Concrete fixtures for evaluations, witnesses and counterexamples -/

/-- A catalog descriptor of a controlnet-capable SD model. -/
def mi_sd : ModelInfo :=
  { name := "sd-v1", model_type := .DIFFUSERS_SD, support_controlnet := true,
    support_freeu := true, support_lcm_lora := true, controlnets := ["canny", "depth"] }

/-- A catalog descriptor with no auxiliary-path support. -/
def mi_plain : ModelInfo :=
  { name := "plain", model_type := .DIFFUSERS_SD, support_controlnet := false,
    support_freeu := true, support_lcm_lora := true, controlnets := [] }

/-- A catalog descriptor whose (external) constructor is made to fail in `envFail`. -/
def mi_bad : ModelInfo :=
  { name := "bad", model_type := .DIFFUSERS_SD, support_controlnet := false,
    support_freeu := false, support_lcm_lora := false, controlnets := [] }

/-- Environment where every external constructor succeeds. -/
def envOk : Env :=
  { catalog := [mi_sd, mi_plain, mi_bad], registered := ["lama"],
    buildFails := fun _ => false,
    switch_mps_device := fun _ d => d,
    invokeResult := fun _ image _ _ => image }

/-- Environment where the constructor for model "bad" raises. -/
def envFail : Env :=
  { envOk with buildFails := fun n => n == "bad" }

/-- A plain-diffusion Backend for "sd-v1". -/
def backend_sd : Backend :=
  { kind := .sd, name := "sd-v1", device := "cpu", controlnet_method := some "canny",
    enable_controlnet := false, freeu := none, adapter := .unloaded }

/-- Manager state holding `backend_sd`, auxiliary path disabled. -/
def state_sd : ManagerState :=
  { name := "sd-v1", device := "cpu", enable_controlnet := false,
    controlnet_method := some "canny", model := some backend_sd }

/-- A Backend for the no-auxiliary-path model "plain". -/
def backend_plain : Backend :=
  { kind := .sd, name := "plain", device := "cpu", controlnet_method := none,
    enable_controlnet := false, freeu := none, adapter := .unloaded }

/-- Manager state holding `backend_plain`. -/
def state_plain : ManagerState :=
  { name := "plain", device := "cpu", enable_controlnet := false,
    controlnet_method := none, model := some backend_plain }

/-- An auxiliary-path-augmented Backend for "sd-v1". -/
def backend_cn : Backend :=
  { kind := .controlNet, name := "sd-v1", device := "cpu", controlnet_method := some "canny",
    enable_controlnet := true, freeu := none, adapter := .unloaded }

/-- Manager state with the auxiliary path enabled and method "canny". -/
def state_cn : ManagerState :=
  { name := "sd-v1", device := "cpu", enable_controlnet := true,
    controlnet_method := some "canny", model := some backend_cn }

/-- Tuning parameters. -/
def freeu0 : FreeuConfig := { s1 := 1, s2 := 1, b1 := 1, b2 := 1 }

/-- Different tuning parameters. -/
def freeu1 : FreeuConfig := { s1 := 2, s2 := 3, b1 := 4, b2 := 5 }

/-- Request with every toggle off. -/
def cfg0 : InpaintRequest :=
  { controlnet_method := none, enable_controlnet := false, sd_freeu := false,
    sd_freeu_config := freeu0, sd_lcm_lora := false }

/-- Request asking for the auxiliary method "bogus" with the enabled flag kept. -/
def cfg_bogus : InpaintRequest :=
  { cfg0 with controlnet_method := some "bogus", enable_controlnet := true }

/-- Request asking for the adapter to be enabled. -/
def cfg_lora : InpaintRequest := { cfg0 with sd_lcm_lora := true }

/-- Request enabling tuning with the parameters `freeu0`. -/
def cfg_freeu_on : InpaintRequest := { cfg0 with sd_freeu := true }

/-- Request enabling tuning with the different parameters `freeu1`. -/
def cfg_freeu_on1 : InpaintRequest :=
  { cfg0 with sd_freeu := true, sd_freeu_config := freeu1 }

/-- Request asking for method "depth" while turning the auxiliary path off. -/
def cfg_depth_off : InpaintRequest := { cfg0 with controlnet_method := some "depth" }

/-- Request enabling both tuning and the adapter. -/
def cfg_both : InpaintRequest := { cfg0 with sd_freeu := true, sd_lcm_lora := true }

/-- Is this event a LoRA weight load? -/
def isLoad : Event → Bool
  | .loraLoad => true
  | _ => false

/-- Number of LoRA weight loads in a trace. -/
def countLoads (evs : List Event) : Nat := (evs.filter isLoad).length

/-- Repeated invoke-time adapter reconciliation: the state threaded
through `enable_disable_lcm_lora` for each request in turn, with the
concatenated event trace. -/
def runLora (env : Env) : ManagerState → List InpaintRequest → ManagerState × List Event
  | s, [] => (s, [])
  | s, c :: cs =>
    let r := ModelManager.enable_disable_lcm_lora env s c
    let p := runLora env r.state cs
    (p.1, r.events ++ p.2)

/-! ### C9 -/

/-- C9: `switch` applied to the currently active name is a no-op for every
Manager state: no error, no rebuild or any other operation (empty event
trace), and the entire ActiveState is returned unchanged. -/
theorem switch_self_noop (env : Env) (s : ManagerState) :
    ModelManager.switch env s s.name = ⟨s, none, []⟩ := by
  simp [ModelManager.switch]

/-! ### C2 -/

/-- C2 counterexample: switching `state_sd` (current name "sd-v1") to the
absent name "ghost" raises a `KeyError` — not the `NotImplementedError`
used for `UnsupportedModel` — and leaves the Manager with its current
name already overwritten to "ghost", so the ActiveState is NOT unchanged. -/
theorem switch_unknown_claim_counterexample :
    findModel envOk.catalog "ghost" = none ∧
    (ModelManager.switch envOk state_sd "ghost").err = some (.keyError "ghost") ∧
    (ModelManager.switch envOk state_sd "ghost").state.name = "ghost" ∧
    (ModelManager.switch envOk state_sd "ghost").state.name ≠ state_sd.name :=
  ⟨rfl, rfl, rfl, by decide⟩

/-- C2 (amended): for every name absent from the catalog and different
from the current one, `switch` raises `KeyError` from the catalog lookup
(the name having already been overwritten with the absent name), while
the auxiliary method, the enabled flag and the held Backend are
unchanged and no rebuild happens. -/
theorem switch_unknown_raises_keyerror (env : Env) (s : ManagerState) (n : String)
    (hne : n ≠ s.name) (habs : findModel env.catalog n = none) :
    ModelManager.switch env s n =
      ⟨{ s with name := n }, some (.keyError n), []⟩ := by
  simp [ModelManager.switch, hne, habs]

/-- C2 witness: the amended statement evaluated on the concrete state. -/
theorem switch_unknown_raises_keyerror_witness :
    ModelManager.switch envOk state_sd "ghost" =
      ⟨{ state_sd with name := "ghost" }, some (.keyError "ghost"), []⟩ :=
  switch_unknown_raises_keyerror envOk state_sd "ghost" (by decide) rfl

/-! ### C1 -/

/-- A Backend successfully returned by an external constructor call was
built for the requested name. -/
theorem construct_ok_name (env : Env) (kind : BackendKind) (device name : String)
    (ec : Bool) (cm : Option String) (b : Backend)
    (h : construct env kind device name ec cm = .ok b) : b.name = name := by
  unfold construct at h
  split at h
  · exact absurd h (by simp)
  · simp only [Except.ok.injEq] at h
    subst h
    rfl

/-- A Backend successfully returned by `init_model` was built for the
requested name. -/
theorem init_model_ok_name (env : Env) (device : String) (ec : Bool)
    (cm : Option String) (name : String) (b : Backend)
    (h : init_model env device ec cm name = .ok b) : b.name = name := by
  unfold init_model at h
  split at h
  · exact absurd h (by simp)
  · split at h
    · exact construct_ok_name _ _ _ _ _ _ _ h
    · split at h
      · exact construct_ok_name _ _ _ _ _ _ _ h
      · split at h
        · exact construct_ok_name _ _ _ _ _ _ _ h
        · split at h
          · exact construct_ok_name _ _ _ _ _ _ _ h
          · exact absurd h (by simp)

end IOPaint

namespace IOPaint

/-- C1: fail-atomicity of `switch`.  For any current state and target
name `B` present in the catalog, if every attempt to build a Backend for
`B` raises `e` while rebuilding the current model's Backend succeeds,
then `switch` ends with the current name, the auxiliary method and the
enabled flag exactly as before, holds a working Backend built for the
old name, and raises exactly the original failure `e`. -/
theorem switch_fail_atomic (env : Env) (s : ManagerState) (B : String)
    (miB : ModelInfo) (e : Err) (bA : Backend)
    (hne : B ≠ s.name)
    (hBcat : findModel env.catalog B = some miB)
    (hfailB : ∀ cm, init_model env (env.switch_mps_device B s.device)
        s.enable_controlnet cm B = .error e)
    (hokA : init_model env (env.switch_mps_device s.name s.device)
        s.enable_controlnet s.controlnet_method s.name = .ok bA) :
    ModelManager.switch env s B =
      ⟨{ s with model := some bA }, some e, [.release, .build s.name]⟩ ∧
    bA.name = s.name := by
  constructor
  · simp only [ModelManager.switch, if_neg hne, hBcat, hfailB, hokA]
  · exact init_model_ok_name _ _ _ _ _ _ hokA

/-- C1 witness: concrete catalog where building "bad" raises while
"sd-v1" rebuilds fine. -/
theorem switch_fail_atomic_witness :
    ModelManager.switch envFail state_sd "bad" =
      ⟨{ state_sd with model := some backend_sd }, some (.buildFailure "bad"),
        [.release, .build state_sd.name]⟩ ∧
    backend_sd.name = state_sd.name :=
  switch_fail_atomic envFail state_sd "bad" mi_bad (.buildFailure "bad") backend_sd
    (by decide) rfl (fun _ => rfl) rfl

/-! ### C3 -/

/-- C3 counterexample: `state_cn` satisfies the invariant (its method
"canny" is in the descriptor's list), yet one invoke-time reconciliation
accepting the requested method "bogus" succeeds and leaves the current
method outside the current descriptor's compatible-method list — so the
invariant is not preserved by every Manager operation. -/
theorem controlnet_invariant_counterexample :
    containsOpt mi_sd.controlnets state_cn.controlnet_method = true ∧
    findModel envOk.catalog state_cn.name = some mi_sd ∧
    (ModelManager.switch_controlnet_method envOk state_cn cfg_bogus).err = none ∧
    (ModelManager.switch_controlnet_method envOk state_cn cfg_bogus).state.name
      = state_cn.name ∧
    (ModelManager.switch_controlnet_method envOk state_cn cfg_bogus).state.controlnet_method
      = some "bogus" ∧
    containsOpt mi_sd.controlnets (some "bogus") = false := by
  refine ⟨by decide, rfl, ?_, ?_, ?_, by decide⟩ <;> rfl

/-- C3 (amended): the reconciliation path can break the invariant (see
the counterexample), but a successful `switch` to a different catalog
name whose descriptor supports the auxiliary path and has a nonempty
compatible-method list does leave the current method inside that
descriptor's list. -/
theorem switch_establishes_method_invariant (env : Env) (s : ManagerState)
    (B : String) (miB : ModelInfo)
    (hne : B ≠ s.name) (hBcat : findModel env.catalog B = some miB)
    (hsup : miB.support_controlnet = true) (hnem : miB.controlnets ≠ [])
    (hok : (ModelManager.switch env s B).err = none) :
    containsOpt miB.controlnets
      (ModelManager.switch env s B).state.controlnet_method = true := by
  simp only [ModelManager.switch, if_neg hne, hBcat] at hok ⊢
  rcases hinit : init_model env (env.switch_mps_device B s.device) s.enable_controlnet
      (if miB.support_controlnet ∧ ¬ containsOpt miB.controlnets s.controlnet_method
        then some miB.controlnets.headI else s.controlnet_method) B with e | b
  · rw [hinit] at hok
    rcases hinit2 : init_model env (env.switch_mps_device s.name s.device)
        s.enable_controlnet s.controlnet_method s.name with e2 | b2 <;>
      rw [hinit2] at hok <;> exact absurd hok (by simp)
  · dsimp only
    by_cases hc : containsOpt miB.controlnets s.controlnet_method = true
    · rw [if_neg (by simp [hc])]
      exact hc
    · rw [if_pos ⟨hsup, hc⟩]
      rcases hl : miB.controlnets with _ | ⟨a, t⟩
      · exact absurd hl hnem
      · simp [containsOpt]

/-- C3 witness for the amended statement: switching from "plain" to
"sd-v1" ends with method "canny", inside the descriptor's list. -/
theorem switch_establishes_method_invariant_witness :
    containsOpt mi_sd.controlnets
      (ModelManager.switch envOk state_plain "sd-v1").state.controlnet_method = true :=
  switch_establishes_method_invariant envOk state_plain "sd-v1" mi_sd
    (by decide) rfl rfl (by decide) rfl

/-! ### C4 -/

/-- C4: first-compatible-method defaulting.  At construction with no
pinned method and a descriptor supporting the auxiliary path, the method
defaults to the descriptor's first compatible method; and a successful
`switch` to a catalog descriptor supporting the auxiliary path, when the
current method is not in its compatible list, resets the method to that
descriptor's first compatible entry. -/
theorem controlnet_method_defaulting (env : Env) (name device : String) (ec : Bool)
    (mi : ModelInfo) (st : ManagerState)
    (hcat : findModel env.catalog name = some mi) (hsup : mi.support_controlnet = true)
    (hmk : ModelManager.mk env name device ec none = .ok st)
    (s : ManagerState) (B : String) (miB : ModelInfo)
    (hne : B ≠ s.name) (hBcat : findModel env.catalog B = some miB)
    (hBsup : miB.support_controlnet = true)
    (hnotin : containsOpt miB.controlnets s.controlnet_method = false)
    (hok : (ModelManager.switch env s B).err = none) :
    st.controlnet_method = some mi.controlnets.headI ∧
    (ModelManager.switch env s B).state.controlnet_method
      = some miB.controlnets.headI := by
  constructor
  · unfold ModelManager.mk at hmk
    rw [hcat] at hmk
    simp only [hsup, if_pos] at hmk
    rcases hinit : init_model env device ec (some mi.controlnets.headI) name with e | b <;>
      rw [hinit] at hmk
    · exact absurd hmk (by simp)
    · simp only [Except.ok.injEq] at hmk
      rw [← hmk]
  · simp only [ModelManager.switch, if_neg hne, hBcat] at hok ⊢
    rw [if_pos ⟨hBsup, by simp [hnotin]⟩] at hok ⊢
    rcases hinit : init_model env (env.switch_mps_device B s.device) s.enable_controlnet
        (some miB.controlnets.headI) B with e | b
    · rw [hinit] at hok
      rcases hinit2 : init_model env (env.switch_mps_device s.name s.device)
          s.enable_controlnet s.controlnet_method s.name with e2 | b2 <;>
        rw [hinit2] at hok <;> exact absurd hok (by simp)
    · rfl

/-- C4 witness: constructing on "sd-v1" with no pinned method defaults
to "canny"; switching from "plain" (method unset) to "sd-v1" resets the
method to "canny". -/
theorem controlnet_method_defaulting_witness :
    ({ name := "sd-v1", device := "cpu", enable_controlnet := false,
       controlnet_method := some "canny",
       model := some backend_sd } : ManagerState).controlnet_method
      = some mi_sd.controlnets.headI ∧
    (ModelManager.switch envOk state_plain "sd-v1").state.controlnet_method
      = some mi_sd.controlnets.headI :=
  controlnet_method_defaulting envOk "sd-v1" "cpu" false mi_sd _ rfl rfl rfl
    state_plain "sd-v1" mi_sd (by decide) rfl rfl (by decide) rfl

end IOPaint

namespace IOPaint

/-! ### C7 -/

/-- C7: Backend Factory dispatch order of `init_model` for a catalog
descriptor, with the external constructors succeeding: (a) descriptor
supports the auxiliary path and it is enabled → auxiliary-path-augmented
variant; (b) else a specially-registered name → that implementation;
(c) else SD-kind → generic SD variant; (d) else SDXL-kind → generic SDXL
variant; (e) else failure with the `NotImplementedError` used for
`UnsupportedModel`. -/
theorem init_model_dispatch (env : Env) (device : String) (ec : Bool)
    (cm : Option String) (name : String) (mi : ModelInfo)
    (hcat : findModel env.catalog name = some mi)
    (hbuild : env.buildFails name = false) :
    ((mi.support_controlnet ∧ ec) →
      init_model env device ec cm name =
        .ok { kind := .controlNet, name := name, device := device,
              controlnet_method := cm, enable_controlnet := ec,
              freeu := none, adapter := .unloaded }) ∧
    (¬ (mi.support_controlnet ∧ ec) → name ∈ env.registered →
      init_model env device ec cm name =
        .ok { kind := .registered, name := name, device := device,
              controlnet_method := cm, enable_controlnet := ec,
              freeu := none, adapter := .unloaded }) ∧
    (¬ (mi.support_controlnet ∧ ec) → name ∉ env.registered →
      (mi.model_type = .DIFFUSERS_SD_INPAINT ∨ mi.model_type = .DIFFUSERS_SD) →
      init_model env device ec cm name =
        .ok { kind := .sd, name := name, device := device,
              controlnet_method := cm, enable_controlnet := ec,
              freeu := none, adapter := .unloaded }) ∧
    (¬ (mi.support_controlnet ∧ ec) → name ∉ env.registered →
      (mi.model_type = .DIFFUSERS_SDXL_INPAINT ∨ mi.model_type = .DIFFUSERS_SDXL) →
      init_model env device ec cm name =
        .ok { kind := .sdxl, name := name, device := device,
              controlnet_method := cm, enable_controlnet := ec,
              freeu := none, adapter := .unloaded }) ∧
    (¬ (mi.support_controlnet ∧ ec) → name ∉ env.registered →
      ¬ (mi.model_type = .DIFFUSERS_SD_INPAINT ∨ mi.model_type = .DIFFUSERS_SD) →
      ¬ (mi.model_type = .DIFFUSERS_SDXL_INPAINT ∨ mi.model_type = .DIFFUSERS_SDXL) →
      init_model env device ec cm name = .error (.notImplemented name)) := by
  refine ⟨?_, ?_, ?_, ?_, ?_⟩
  · intro h
    simp [init_model, hcat, construct, hbuild, h.1, h.2]
  · intro h hreg
    simp [init_model, hcat, construct, hbuild, h, hreg]
  · intro h hreg htype
    rcases htype with h1 | h1 <;>
      simp [init_model, hcat, construct, hbuild, h, hreg, h1]
  · intro h hreg htype
    rcases htype with h1 | h1 <;>
      simp [init_model, hcat, construct, hbuild, h, hreg, h1]
  · intro h hreg hsd hsdxl
    simp [init_model, hcat, construct, hbuild, h, hreg, hsd, hsdxl]

/-- C7 witness: dispatch case (a) on the concrete catalog — descriptor
supports the auxiliary path and it is enabled, so the augmented variant
is built. -/
theorem init_model_dispatch_witness :
    init_model envOk "cpu" true (some "canny") "sd-v1" =
      .ok { kind := .controlNet, name := "sd-v1", device := "cpu",
            controlnet_method := some "canny", enable_controlnet := true,
            freeu := none, adapter := .unloaded } :=
  (init_model_dispatch envOk "cpu" true (some "canny") "sd-v1" mi_sd rfl rfl).1
    (by decide)

/-! ### C8 -/

/-- C8: tuning reconciliation is idempotent and last-write-wins on a
supported (non-mps) device for a descriptor supporting tuning: applying
enable with identical parameters twice equals applying it once; enable
then disable resets the Backend to baseline; enable, disable, enable
with different parameters leaves exactly the latest parameters; disable
alone resets to baseline. -/
theorem freeu_idempotent_last_write (env : Env) (s : ManagerState)
    (mi : ModelInfo) (m : Backend)
    (hm : s.model = some m) (hdev : m.device ≠ "mps")
    (hcat : findModel env.catalog s.name = some mi) (hsup : mi.support_freeu = true)
    (c1 c2 c3 : InpaintRequest)
    (h1 : c1.sd_freeu = true) (h2 : c2.sd_freeu = false) (h3 : c3.sd_freeu = true) :
    (ModelManager.enable_disable_freeu env
        (ModelManager.enable_disable_freeu env s c1).state c1).state
      = (ModelManager.enable_disable_freeu env s c1).state ∧
    (ModelManager.enable_disable_freeu env
        (ModelManager.enable_disable_freeu env s c1).state c2).state.model
      = some { m with freeu := none } ∧
    (ModelManager.enable_disable_freeu env
        (ModelManager.enable_disable_freeu env
          (ModelManager.enable_disable_freeu env s c1).state c2).state c3).state.model
      = some { m with freeu := some c3.sd_freeu_config } ∧
    (ModelManager.enable_disable_freeu env s c2).state.model
      = some { m with freeu := none } := by
  refine ⟨?_, ?_, ?_, ?_⟩ <;>
    simp [ModelManager.enable_disable_freeu, hm, hdev, hcat, hsup, h1, h2, h3]

/-- C8 witness: the four conjuncts evaluated on the concrete "sd-v1"
state with two distinct parameter sets. -/
theorem freeu_idempotent_last_write_witness :
    (ModelManager.enable_disable_freeu envOk
        (ModelManager.enable_disable_freeu envOk state_sd cfg_freeu_on).state
        cfg_freeu_on).state
      = (ModelManager.enable_disable_freeu envOk state_sd cfg_freeu_on).state ∧
    (ModelManager.enable_disable_freeu envOk
        (ModelManager.enable_disable_freeu envOk state_sd cfg_freeu_on).state
        cfg0).state.model
      = some { backend_sd with freeu := none } ∧
    (ModelManager.enable_disable_freeu envOk
        (ModelManager.enable_disable_freeu envOk
          (ModelManager.enable_disable_freeu envOk state_sd cfg_freeu_on).state
          cfg0).state cfg_freeu_on1).state.model
      = some { backend_sd with freeu := some cfg_freeu_on1.sd_freeu_config } ∧
    (ModelManager.enable_disable_freeu envOk state_sd cfg0).state.model
      = some { backend_sd with freeu := none } :=
  freeu_idempotent_last_write envOk state_sd mi_sd backend_sd rfl (by decide) rfl rfl
    cfg_freeu_on cfg0 cfg_freeu_on1 rfl rfl rfl

/-! ### C10 -/

/-- C10: branch precedence in auxiliary-path reconciliation.  When the
auxiliary path is currently enabled and the request carries a method
that differs from the current one AND simultaneously asks to flip the
enabled flag off, only the cheap method switch happens: the manager and
Backend method change, the enabled flag keeps its old value, and the
event trace contains no rebuild — the method-change branch shadows the
flag-change branch. -/
theorem controlnet_branch_precedence (env : Env) (s : ManagerState)
    (mi : ModelInfo) (m : Backend) (config : InpaintRequest) (c : String)
    (hcat : findModel env.catalog s.name = some mi) (hsup : mi.support_controlnet = true)
    (hen : s.enable_controlnet = true)
    (hc : config.controlnet_method = some c) (hcne : c ≠ "")
    (hdiff : s.controlnet_method ≠ some c)
    (_hflip : config.enable_controlnet = false)
    (hm : s.model = some m) :
    ModelManager.switch_controlnet_method env s config =
      ⟨{ s with controlnet_method := some c,
                model := some { m with controlnet_method := some c } },
        none, [.methodSwitch (some c)]⟩ := by
  simp [ModelManager.switch_controlnet_method, hcat, hsup, hen, hc, hcne, hdiff, hm,
    truthy]

/-- C10 witness: with the auxiliary path enabled on method "canny", a
request for method "depth" with the enabled flag turned off performs
only the cheap method switch. -/
theorem controlnet_branch_precedence_witness :
    ModelManager.switch_controlnet_method envOk state_cn cfg_depth_off =
      ⟨{ state_cn with controlnet_method := some "depth",
                       model := some { backend_cn with controlnet_method := some "depth" } },
        none, [.methodSwitch (some "depth")]⟩ :=
  controlnet_branch_precedence envOk state_cn mi_sd backend_cn cfg_depth_off "depth"
    rfl rfl rfl rfl (by decide) (by decide) rfl rfl

end IOPaint

namespace IOPaint

/-! ### C5 -/

/-- Replicated cheap-enable traces contain no load. -/
theorem filter_isLoad_replicate_enable (n : Nat) :
    (List.replicate n Event.loraEnable).filter isLoad = [] := by
  induction n with
  | zero => rfl
  | succ k ih => simp [List.replicate_succ, List.filter_cons, isLoad, ih]

/-- One adapter reconciliation from a loaded state with enable requested
performs only the cheap enable, never a load. -/
theorem lora_enable_from_loaded (env : Env) (s : ManagerState) (mi : ModelInfo)
    (m : Backend)
    (hcat : findModel env.catalog s.name = some mi) (hsup : mi.support_lcm_lora = true)
    (hm : s.model = some m) (hl : m.adapter ≠ .unloaded) (c : InpaintRequest)
    (hc : c.sd_lcm_lora = true) :
    ModelManager.enable_disable_lcm_lora env s c =
      ⟨{ s with model := some { m with adapter := .loadedEnabled } }, none,
        [.loraEnable]⟩ := by
  simp [ModelManager.enable_disable_lcm_lora, hcat, hsup, hm, hl, hc]

/-- From a loaded-enabled adapter, any run of enable-requested
reconciliations emits exactly one cheap enable per call and no load. -/
theorem runLora_enabled (env : Env) (mi : ModelInfo)
    (hsup : mi.support_lcm_lora = true) (cfgs : List InpaintRequest) :
    ∀ (s : ManagerState) (m : Backend),
      findModel env.catalog s.name = some mi → s.model = some m →
      m.adapter = .loadedEnabled → (∀ c ∈ cfgs, c.sd_lcm_lora = true) →
      (runLora env s cfgs).2 = List.replicate cfgs.length .loraEnable := by
  induction cfgs with
  | nil =>
    intro s m _ _ _ _
    simp [runLora]
  | cons c cs ih =>
    intro s m hcat hm hl hall
    have hstep := lora_enable_from_loaded env s mi m hcat hsup hm (by simp [hl]) c
      (hall c (by simp))
    have hrest := ih { s with model := some { m with adapter := .loadedEnabled } }
      { m with adapter := .loadedEnabled } hcat rfl rfl
      (fun d hd => hall d (by simp [hd]))
    simp [runLora, hstep, hrest, List.replicate_succ]

/-- C5: adapter load happens at most once per Backend instance.  For a
descriptor supporting the adapter, starting from the unloaded state, any
nonempty sequence of reconciliations requesting adapter-enabled produces
a trace consisting of exactly one load followed only by cheap enables
(so exactly one load operation and never a reload), and a single
reconciliation requesting disable from the unloaded state performs no
operation at all. -/
theorem lcm_lora_load_once (env : Env) (s : ManagerState) (mi : ModelInfo)
    (m : Backend)
    (hcat : findModel env.catalog s.name = some mi) (hsup : mi.support_lcm_lora = true)
    (hm : s.model = some m) (hunl : m.adapter = .unloaded)
    (cfgs : List InpaintRequest) (hall : ∀ c ∈ cfgs, c.sd_lcm_lora = true)
    (hne : cfgs ≠ [])
    (c0 : InpaintRequest) (hc0 : c0.sd_lcm_lora = false) :
    (runLora env s cfgs).2 =
      .loraLoad :: List.replicate (cfgs.length - 1) .loraEnable ∧
    countLoads (runLora env s cfgs).2 = 1 ∧
    ModelManager.enable_disable_lcm_lora env s c0 = ⟨s, none, []⟩ := by
  obtain ⟨c, cs, rfl⟩ : ∃ c cs, cfgs = c :: cs := by
    cases cfgs with
    | nil => exact absurd rfl hne
    | cons c cs => exact ⟨c, cs, rfl⟩
  have hstep : ModelManager.enable_disable_lcm_lora env s c =
      ⟨{ s with model := some { m with adapter := .loadedEnabled } }, none,
        [.loraLoad]⟩ := by
    simp [ModelManager.enable_disable_lcm_lora, hcat, hsup, hm, hunl, hall c (by simp)]
  have hrest := runLora_enabled env mi hsup cs
    { s with model := some { m with adapter := .loadedEnabled } }
    { m with adapter := .loadedEnabled } hcat rfl rfl
    (fun d hd => hall d (by simp [hd]))
  have htrace : (runLora env s (c :: cs)).2 =
      .loraLoad :: List.replicate cs.length .loraEnable := by
    simp [runLora, hstep, hrest]
  refine ⟨?_, ?_, ?_⟩
  · rw [htrace]
    simp
  · rw [htrace]
    simp [countLoads, List.filter_cons, isLoad, filter_isLoad_replicate_enable]
  · simp [ModelManager.enable_disable_lcm_lora, hcat, hsup, hm, hunl, hc0]

/-- C5 witness: two consecutive enable-requested reconciliations on the
fresh "sd-v1" Backend: one load then one cheap enable; a disable request
on the fresh Backend is a no-op. -/
theorem lcm_lora_load_once_witness :
    (runLora envOk state_sd [cfg_lora, cfg_lora]).2 =
      .loraLoad :: List.replicate 1 .loraEnable ∧
    countLoads (runLora envOk state_sd [cfg_lora, cfg_lora]).2 = 1 ∧
    ModelManager.enable_disable_lcm_lora envOk state_sd cfg0 =
      ⟨state_sd, none, []⟩ :=
  lcm_lora_load_once envOk state_sd mi_sd backend_sd rfl rfl rfl rfl
    [cfg_lora, cfg_lora] (by decide) (by decide) cfg0 rfl

/-! ### C6 -/

/-- C6: `invoke` performs auxiliary-path, then tuning, then adapter
reconciliation in this fixed order (each step starting from the state
the previous one left), and only then delegates to the active Backend,
returning its result converted by the fixed uint8 output conversion. -/
theorem invoke_reconciliation_order (env : Env) (s : ManagerState)
    (image mask : List Int) (config : InpaintRequest) (m : Backend)
    (h1 : (ModelManager.switch_controlnet_method env s config).err = none)
    (h2 : (ModelManager.enable_disable_freeu env
            (ModelManager.switch_controlnet_method env s config).state config).err
          = none)
    (h3 : (ModelManager.enable_disable_lcm_lora env
            (ModelManager.enable_disable_freeu env
              (ModelManager.switch_controlnet_method env s config).state config).state
            config).err = none)
    (hm : (ModelManager.enable_disable_lcm_lora env
            (ModelManager.enable_disable_freeu env
              (ModelManager.switch_controlnet_method env s config).state config).state
            config).state.model = some m) :
    ModelManager.call env s image mask config =
      (⟨(ModelManager.enable_disable_lcm_lora env
            (ModelManager.enable_disable_freeu env
              (ModelManager.switch_controlnet_method env s config).state config).state
            config).state,
        none,
        (ModelManager.switch_controlnet_method env s config).events ++
          (ModelManager.enable_disable_freeu env
            (ModelManager.switch_controlnet_method env s config).state config).events ++
          (ModelManager.enable_disable_lcm_lora env
            (ModelManager.enable_disable_freeu env
              (ModelManager.switch_controlnet_method env s config).state config).state
            config).events ++ [.backendInvoke]⟩,
        some (astype_uint8 (env.invokeResult m image mask config))) := by
  simp only [ModelManager.call, h1, h2, h3, hm]

/-- C6 witness: on the "plain" model with tuning and adapter requested,
the call reconciles in order (no auxiliary-path step events, one tuning
enable, one adapter load), then invokes the Backend and converts its
result to uint8 range. -/
theorem invoke_reconciliation_order_witness :
    ModelManager.call envOk state_plain [300, -5] [0] cfg_both =
      (⟨{ state_plain with
            model := some { backend_plain with
                              freeu := some freeu0, adapter := .loadedEnabled } },
          none, [.freeuEnable freeu0, .loraLoad, .backendInvoke]⟩,
        some [44, 251]) :=
  invoke_reconciliation_order envOk state_plain [300, -5] [0] cfg_both
    { backend_plain with freeu := some freeu0, adapter := .loadedEnabled }
    rfl rfl rfl rfl

end IOPaint
